import Mathlib

/-!
Verification development for the cross-platform FFI trampoline engine in
`cross.c`.  The C source generates machine code at runtime ("trampolines")
that marshals a type-erased argument vector into the registers and stack
slots required by a platform ABI, calls a target function, and stores the
return value through a caller-supplied buffer.

The embedding below mirrors, at the level of emitted instructions and of the
register-allocation decisions, the following C functions:

* `generate_x86_64_sysv_trampoline`  (cross.c lines 693-1174)
* `generate_x86_64_win64_trampoline` (cross.c lines 1182-1670, allocation
  and stack-reservation arithmetic)
* `generate_arm64_aapcs_trampoline`  (cross.c lines 1682-2040, stack
  reservation arithmetic)
* `ffi_create_executable_memory`     (cross.c lines 576-618)
* `create_ffi_function`              (cross.c lines 2089-2187)
* `destroy_ffi_function`             (cross.c lines 2194-2204)
* `invoke_foreign_function`          (cross.c lines 2217-2337)

Machine integers are modelled as `Nat` with explicit `% 2 ^ w` where overflow
matters; fallible C paths (`return 0`, `return NULL`) are modelled with
`Option`; the x86 instructions actually emitted by the SysV generator are
modelled by an instruction datatype together with a small interpreter that
gives them their ISA semantics.
-/

namespace CrossFFI

/-! ### The type model (`FFI_Type`, cross.c lines 48-74) -/

/-- The closed enumeration of scalar type kinds, one constructor per
`FFI_TYPE_*` enumerator of cross.c. -/
inductive FFI_Type where
  | UNKNOWN
  | VOID
  | BOOL
  | CHAR
  | UCHAR
  | SHORT
  | USHORT
  | INT
  | UINT
  | LONG
  | ULONG
  | LLONG
  | ULLONG
  | FLOAT
  | DOUBLE
  | POINTER
  | WCHAR
  | SIZE_T
  | SCHAR
  | SSHORT
  | SINT
  | SLONG
  | SLLONG
  | INT128
  | UINT128
  deriving DecidableEq, Repr

/-- Byte width of each scalar kind on the x86-64 System V (Linux) target,
matching the store widths of the return-value handling in
`generate_x86_64_sysv_trampoline` (cross.c lines 1065-1148) and the load
widths of its argument marshalling (lines 885-933). -/
def scalarWidth : FFI_Type → Nat
  | .BOOL | .CHAR | .UCHAR | .SCHAR => 1
  | .SHORT | .USHORT | .SSHORT => 2
  | .INT | .UINT | .SINT | .WCHAR => 4
  | .LONG | .ULONG | .LLONG | .ULLONG => 8
  | .POINTER | .SIZE_T | .SLONG | .SLLONG => 8
  | .FLOAT => 4
  | .DOUBLE => 8
  | .INT128 | .UINT128 => 16
  | .VOID | .UNKNOWN => 0

/-- The scalar kinds for which the SysV generator has both a marshalling
path and a return-store path, i.e. every enumerator except `VOID` and
`UNKNOWN`. -/
def supportedScalars : List FFI_Type :=
  [.BOOL, .CHAR, .UCHAR, .SHORT, .USHORT, .INT, .UINT, .LONG, .ULONG,
   .LLONG, .ULLONG, .FLOAT, .DOUBLE, .POINTER, .WCHAR, .SIZE_T, .SCHAR,
   .SSHORT, .SINT, .SLONG, .SLLONG, .INT128, .UINT128]

/-! ### Little-endian byte memory

Caller-supplied buffers (the return slot) are modelled as functions from a
byte offset to a byte value, written and read little-endian as the emitted
`mov` stores do. -/

/-- Byte-addressed memory: offset to byte value. -/
def Mem : Type := Nat → Nat

/-- Write the `w` low bytes of `v` at offsets `off, off+1, ...`,
little-endian. -/
def writeBytes : Mem → Nat → Nat → Nat → Mem
  | m, _, 0, _ => m
  | m, off, w + 1, v =>
      writeBytes (fun a => if a = off then v % 256 else m a) (off + 1) w (v / 256)

/-- Read `w` bytes at offsets `off, off+1, ...`, little-endian. -/
def readBytes : Mem → Nat → Nat → Nat
  | _, _, 0 => 0
  | m, off, w + 1 => m off % 256 + 256 * readBytes m (off + 1) w

/-! ### Register loads: zero- and sign-extension into a 64-bit register

These model the MOVZX / MOVSX / MOVSXD / MOV instructions the generator
emits when it loads an argument pointee into a general-purpose register. -/

/-- Zero-extend the low `w` bytes of `v` into a 64-bit register. -/
def zext (w v : Nat) : Nat := v % 2 ^ (8 * w)

/-- Sign-extend the low `w` bytes of `v` into a 64-bit register
(two-complement). -/
def sext (w v : Nat) : Nat :=
  if v % 2 ^ (8 * w) < 2 ^ (8 * w - 1) then v % 2 ^ (8 * w)
  else v % 2 ^ (8 * w) + (2 ^ 64 - 2 ^ (8 * w))

/-! ### x86-64 registers and the instruction forms emitted by the generator -/

/-- General-purpose 64-bit registers. -/
inductive GPR where
  | rax | rcx | rdx | rbx | rsp | rbp | rsi | rdi
  | r8 | r9 | r10 | r11 | r12 | r13 | r14 | r15
  deriving DecidableEq, Repr

/-- Whether a register is one of R8-R15 (its PUSH/POP encoding then needs a
REX.B prefix byte, so those pushes are two bytes long). -/
def GPR.extended : GPR → Bool
  | .r8 | .r9 | .r10 | .r11 | .r12 | .r13 | .r14 | .r15 => true
  | _ => false

/-- The type-directed load forms of the SysV marshalling switch
(cross.c lines 885-933 and 997-1027): which MOVZX / MOVSX / MOVSXD / MOV
instruction the generator emits for a given scalar kind. -/
inductive ExtMode where
  | zext8   -- MOVZX r64, r/m8   (opcode 0F B6)
  | sext8   -- MOVSX r64, r/m8   (opcode 0F BE)
  | zext16  -- MOVZX r64, r/m16  (opcode 0F B7, 66 prefix)
  | sext16  -- MOVSX r64, r/m16  (opcode 0F BF, 66 prefix)
  | sext32  -- MOVSXD r64, r/m32 (opcode 63)
  | zext32  -- MOV r32, r/m32    (opcode 8B, zero-extends)
  | mov64   -- MOV r64, r/m64    (opcode 8B with REX.W)
  deriving DecidableEq, Repr

/-- Number of pointee bytes each load form reads. -/
def ExtMode.width : ExtMode → Nat
  | .zext8 | .sext8 => 1
  | .zext16 | .sext16 => 2
  | .sext32 | .zext32 => 4
  | .mov64 => 8

/-- The 64-bit register value produced by loading pointee bits `v`. -/
def ExtMode.extend : ExtMode → Nat → Nat
  | .zext8, v => zext 1 v
  | .sext8, v => sext 1 v
  | .zext16, v => zext 2 v
  | .sext16, v => sext 2 v
  | .sext32, v => sext 4 v
  | .zext32, v => zext 4 v
  | .mov64, v => v % 2 ^ 64

/-- Encoded byte length of each load form at `[reg]` with no displacement,
counted from the emission sites in cross.c (lines 885-933): prefix bytes +
opcode bytes + ModRM. -/
def ExtMode.encLen : ExtMode → Nat
  | .zext8 | .sext8 => 4       -- REX 0F B6/BE ModRM
  | .zext16 | .sext16 => 5     -- 66 REX 0F B7/BF ModRM
  | .sext32 | .zext32 => 3     -- REX 63/8B ModRM
  | .mov64 => 3                -- REX 8B ModRM

/-- One instruction as emitted by `generate_x86_64_sysv_trampoline`.  Each
constructor corresponds to one emission site of the C function; operand
fields record the operands the C code encodes. -/
inductive X86Instr where
  /-- endbr64 (cross.c lines 705-708). -/
  | endbr64
  /-- push of a register (prologue, lines 712 / 725-726 / 734-735). -/
  | pushReg (r : GPR)
  /-- register-to-register 64-bit move `dst := src` (lines 715-717,
  729-731, 738-740). -/
  | movRegReg (dst src : GPR)
  /-- `sub rsp, imm8` (lines 794-798). -/
  | subRspImm8 (imm : Nat)
  /-- `add rsp, imm8` (epilogue, lines 1152-1156). -/
  | addRspImm8 (imm : Nat)
  /-- `mov al, 0` (lines 803-804). -/
  | movAl0
  /-- `mov dst, [base + disp8]` loading `args[i].value_ptr`
  (lines 821-825); `disp = 8 * i`. -/
  | loadPtr (dst base : GPR) (disp : Nat)
  /-- type-directed load `dst := ext [base]` (lines 885-933 and the
  128-bit low-half load, lines 853-859). -/
  | loadGprExt (e : ExtMode) (dst base : GPR)
  /-- `mov dst, [base + disp8]` 64-bit data load (the 128-bit high-half
  load, lines 861-869). -/
  | loadGpr64Disp (dst base : GPR) (disp : Nat)
  /-- `movss/movsd xmm(dst), [base]` (lines 836-844, 972-978). -/
  | loadXmm (dbl : Bool) (dst : Nat) (base : GPR)
  /-- `mov [rsp + off], src` spilling a GPR argument (lines 1030-1039);
  the disp8 byte is omitted when `off = 0`. -/
  | storeStackGpr (src : GPR) (off : Nat)
  /-- `mov [rsp + off], src` in the 128-bit spill path (lines 954-968);
  the disp8 byte is always emitted. -/
  | storeStackGprD8 (src : GPR) (off : Nat)
  /-- `movss/movsd [rsp + off], xmm(src)` (lines 980-988). -/
  | storeStackXmm (dbl : Bool) (src : Nat) (off : Nat)
  /-- `movabs rax, imm64` loading the target address (lines 1048-1057). -/
  | movRaxImm64 (addr : Nat)
  /-- `call rax` (lines 1059-1061). -/
  | callRax
  /-- store of the `w`-byte low part of RAX to `[base]` (return handling,
  lines 1067-1110 and the 128-bit low store, lines 1132-1136). -/
  | storeRet (w : Nat) (base : GPR)
  /-- `mov [base + disp8], src` 64-bit store (the 128-bit high store,
  lines 1138-1143). -/
  | storeRetDisp (src base : GPR) (disp : Nat)
  /-- `movss/movsd [base], xmm0` (return handling, lines 1111-1128). -/
  | storeRetXmm (dbl : Bool) (base : GPR)
  /-- pop of a register (epilogue, lines 1159-1168). -/
  | popReg (r : GPR)
  /-- ret (line 1171). -/
  | ret
  deriving DecidableEq, Repr

/-- Encoded byte length of each instruction, counted from the number of
byte writes at the corresponding emission site in cross.c. -/
def instrLen : X86Instr → Nat
  | .endbr64 => 4
  | .pushReg r => if r.extended then 2 else 1
  | .movRegReg _ _ => 3
  | .subRspImm8 _ => 4
  | .addRspImm8 _ => 4
  | .movAl0 => 2
  | .loadPtr _ _ _ => 4
  | .loadGprExt e _ _ => e.encLen
  | .loadGpr64Disp _ _ _ => 4
  | .loadXmm _ _ _ => 5
  | .storeStackGpr _ off => if off = 0 then 4 else 5
  | .storeStackGprD8 _ _ => 5
  | .storeStackXmm _ _ _ => 7
  | .movRaxImm64 _ => 10
  | .callRax => 2
  | .storeRet w _ => if w = 2 then 5 else 4
  | .storeRetDisp _ _ _ => 5
  | .storeRetXmm _ _ => 6
  | .popReg r => if r.extended then 2 else 1
  | .ret => 1

/-! ### The SysV generator (`generate_x86_64_sysv_trampoline`) -/

/-- The GPR argument registers of the SysV ABI in order, mirroring
`gp_arg_regs` (cross.c line 813). -/
def sysvGpArgRegs : List GPR := [.rdi, .rsi, .rdx, .rcx, .r8, .r9]

/-- The SysV GPR argument register at position `i`. -/
def sysvGpReg (i : Nat) : GPR := sysvGpArgRegs.getD i .rax

/-- The load form chosen by the marshalling switch for a GPR-class
parameter (cross.c lines 885-933; the spill path at lines 997-1027 chooses
identically), or `none` for the `default: return 0` case. -/
def sysvGprLoadExt : FFI_Type → Option ExtMode
  | .BOOL | .CHAR | .UCHAR => some .zext8
  | .SCHAR => some .sext8
  | .SHORT | .SSHORT => some .sext16
  | .USHORT => some .zext16
  | .INT | .SINT | .WCHAR => some .sext32
  | .UINT => some .zext32
  | .LONG | .ULONG | .LLONG | .ULLONG => some .mov64
  | .POINTER | .SIZE_T | .SLONG | .SLLONG => some .mov64
  | _ => none

/-- One step of the register-count pre-pass (first loop of
`generate_x86_64_sysv_trampoline`, cross.c lines 747-770).  State is
`(num_gp_regs_used, num_xmm_regs_used, num_stack_args)`. -/
def sysvPrepassStep (st : Nat × Nat × Nat) (t : FFI_Type) : Nat × Nat × Nat :=
  match st with
  | (gp, xm, stk) =>
    if t = .FLOAT ∨ t = .DOUBLE then
      if xm < 8 then (gp, xm + 1, stk) else (gp, xm, stk + 1)
    else if t = .INT128 ∨ t = .UINT128 then
      if gp ≤ 4 then (gp + 2, xm, stk) else (gp, xm, stk + 2)
    else
      if gp < 6 then (gp + 1, xm, stk) else (gp, xm, stk + 1)

/-- The SysV pre-pass over the whole parameter list. -/
def sysvPrepass (ps : List FFI_Type) : Nat × Nat × Nat :=
  ps.foldl sysvPrepassStep (0, 0, 0)

/-- Round up to the next multiple of 16; this is what the byte-stepping
`while ((x % 16) != 0) x++;` loop at cross.c lines 785-787 computes. -/
def roundUpTo16 (x : Nat) : Nat := if x % 16 = 0 then x else x + (16 - x % 16)

/-- The `final_stack_subtraction` computation of the SysV generator
(cross.c lines 772-791): 8 bytes per stack argument, rounded up to a
multiple of 16, and 0 when there are no stack arguments. -/
def sysv_final_stack_subtraction (ps : List FFI_Type) : Nat :=
  let stk := (sysvPrepass ps).2.2
  if 0 < stk then roundUpTo16 (stk * 8) else 0

/-- Where one argument was placed by the marshalling pass. -/
inductive ArgLoc where
  /-- the i-th integer argument register of the ABI. -/
  | gpr (idx : Nat)
  /-- the i-th float argument register. -/
  | xmm (idx : Nat)
  /-- the adjacent integer register pair (lo, hi) holding a 128-bit value. -/
  | gprPair (lo hi : Nat)
  /-- the i-th 8-byte stack slot. -/
  | stack (slot : Nat)
  /-- two 8-byte stack slots (lo, hi) holding a 128-bit value. -/
  | stackPair (lo hi : Nat)
  deriving DecidableEq, Repr

/-- Marshalling of a single parameter by the SysV generator (one iteration
of the loop at cross.c lines 817-1043).  `i` is the parameter index,
`(gp, xm, stk)` are `gp_reg_idx`, `xmm_reg_idx`, `stack_arg_current_idx`.
Returns the emitted instructions, the chosen location and the new counters,
or `none` for the `default: return 0` paths. -/
def sysvMarshalArg (i : Nat) (t : FFI_Type) (st : Nat × Nat × Nat) :
    Option (List X86Instr × ArgLoc × (Nat × Nat × Nat)) :=
  match st with
  | (gp, xm, stk) =>
    -- load args[i].value_ptr into R10 (lines 821-825)
    let lead : List X86Instr := [.loadPtr .r10 .r14 (8 * i)]
    if t = .FLOAT ∨ t = .DOUBLE then
      if xm < 8 then
        some (lead ++ [.loadXmm (t = .DOUBLE) xm .r10], .xmm xm, (gp, xm + 1, stk))
      else
        some (lead ++ [.loadXmm (t = .DOUBLE) 7 .r10,
                       .storeStackXmm (t = .DOUBLE) 7 (8 * stk)],
              .stack stk, (gp, xm, stk + 1))
    else if t = .INT128 ∨ t = .UINT128 then
      if gp ≤ 4 then
        some (lead ++ [.loadGprExt .mov64 (sysvGpReg gp) .r10,
                       .loadGpr64Disp (sysvGpReg (gp + 1)) .r10 8],
              .gprPair gp (gp + 1), (gp + 2, xm, stk))
      else
        some (lead ++ [.loadGprExt .mov64 .r11 .r10,
                       .loadGpr64Disp .r13 .r10 8,
                       .storeStackGprD8 .r11 (8 * stk),
                       .storeStackGprD8 .r13 (8 * (stk + 1))],
              .stackPair stk (stk + 1), (gp, xm, stk + 2))
    else
      match sysvGprLoadExt t with
      | none => none
      | some e =>
        if gp < 6 then
          some (lead ++ [.loadGprExt e (sysvGpReg gp) .r10], .gpr gp, (gp + 1, xm, stk))
        else
          some (lead ++ [.loadGprExt e .r11 .r10, .storeStackGpr .r11 (8 * stk)],
                .stack stk, (gp, xm, stk + 1))

/-- The whole SysV marshalling loop, producing the emitted instructions
and the locations chosen for the arguments. -/
def sysvMarshalList : List FFI_Type → Nat → (Nat × Nat × Nat) →
    Option (List X86Instr × List ArgLoc)
  | [], _, _ => some ([], [])
  | t :: ts, i, st =>
    match sysvMarshalArg i t st with
    | none => none
    | some (ins, loc, st₂) =>
      match sysvMarshalList ts (i + 1) st₂ with
      | none => none
      | some (ins₂, locs) => some (ins ++ ins₂, loc :: locs)

/-- The return-value handling of the SysV generator (cross.c lines
1063-1148): the store instructions emitted after the call, or `none` for
the `default: return 0` case (`FFI_TYPE_UNKNOWN`). -/
def sysvRetStore : FFI_Type → Option (List X86Instr)
  | .VOID => some []
  | .BOOL | .CHAR | .UCHAR | .SCHAR => some [.storeRet 1 .r12]
  | .SHORT | .USHORT | .SSHORT => some [.storeRet 2 .r12]
  | .INT | .UINT | .SINT | .WCHAR => some [.storeRet 4 .r12]
  | .LONG | .ULONG | .LLONG | .ULLONG => some [.storeRet 8 .r12]
  | .POINTER | .SIZE_T | .SLONG | .SLLONG => some [.storeRet 8 .r12]
  | .FLOAT => some [.storeRetXmm false .r12]
  | .DOUBLE => some [.storeRetXmm true .r12]
  | .INT128 | .UINT128 => some [.storeRet 8 .r12, .storeRetDisp .rdx .r12 8]
  | .UNKNOWN => none

/-- The signature record of cross.c (`FFI_FunctionSignature`, lines
86-94); `trampoline_code` holds the generated instruction sequence once
the factory has published it (`NULL` is modelled by `none`).  The debug
name carries no behaviour and is omitted.  `num_params` and `param_types`
are kept consistent by construction, as `create_ffi_function` does. -/
structure FFI_FunctionSignature where
  return_type : FFI_Type
  param_types : List FFI_Type
  func_ptr : Nat
  trampoline_code : Option (List X86Instr)
  deriving DecidableEq, Repr

/-- The signature's parameter count (`num_params`). -/
def FFI_FunctionSignature.num_params (sig : FFI_FunctionSignature) : Nat :=
  sig.param_types.length

/-- The whole SysV generator `generate_x86_64_sysv_trampoline` (cross.c
lines 693-1174) as an instruction sequence: endbr64, prologue, optional
stack reservation, `mov al, 0`, argument marshalling, the call sequence,
return store, epilogue.  `none` models the `return 0;` failure paths. -/
def sysv_generate (sig : FFI_FunctionSignature) : Option (List X86Instr) :=
  let fss := sysv_final_stack_subtraction sig.param_types
  match sysvMarshalList sig.param_types 0 (0, 0, 0) with
  | none => none
  | some (margs, _) =>
    match sysvRetStore sig.return_type with
    | none => none
    | some rets =>
      some ([X86Instr.endbr64,
             .pushReg .rbp, .movRegReg .rbp .rsp,
             .pushReg .r14, .movRegReg .r14 .rdi,
             .pushReg .r12, .movRegReg .r12 .rdx]
            ++ (if 0 < fss then [X86Instr.subRspImm8 fss] else [])
            ++ [X86Instr.movAl0]
            ++ margs
            ++ [X86Instr.movRaxImm64 sig.func_ptr, .callRax]
            ++ rets
            ++ (if 0 < fss then [X86Instr.addRspImm8 fss] else [])
            ++ [X86Instr.popReg .r12, .popReg .r14, .popReg .rbp, .ret])

/-- The byte count reported by `generate_x86_64_sysv_trampoline`: the sum
of the encoded lengths of the emitted instructions, and 0 on the
`return 0;` failure paths. -/
def sysv_generate_size (sig : FFI_FunctionSignature) : Nat :=
  match sysv_generate sig with
  | none => 0
  | some code => (code.map instrLen).sum

/-- The locations the SysV generator assigns to the parameters (the
branch structure of the marshalling loop), when generation succeeds. -/
def sysvAllocLocs (ps : List FFI_Type) : Option (List ArgLoc) :=
  match sysvMarshalList ps 0 (0, 0, 0) with
  | none => none
  | some (_, locs) => some locs

/-! ### A small interpreter for the emitted SysV instructions

Register and memory values are symbolic: the three pointers the trampoline
receives (`args`, the elements pointed at by `args[i].value_ptr`, and
`return_buffer_ptr`) are kept abstract, while data loaded from argument
pointees is numeric.  This is the ISA semantics of exactly the instruction
forms the generator emits. -/

/-- A 64-bit register value: a number, the base of the `FFI_Argument`
array, the pointer stored in `args[i].value_ptr`, the return-buffer
pointer, or an unknown value. -/
inductive V where
  | num (n : Nat)
  | argsBase
  | argPtr (i : Nat)
  | retPtr
  | undef
  deriving DecidableEq, Repr

/-- Numeric view of a register value (0 for non-numeric values). -/
def vToNat : V → Nat
  | .num n => n
  | _ => 0

/-- The registers the target function returns its result in: RAX, RDX
(128-bit high half) and XMM0. -/
structure RetRegs where
  rax : Nat
  rdx : Nat
  xmm0 : Nat

/-- ABI-level semantics of the called target function: from the GPR file,
the XMM file and the outgoing stack-argument slots to the return
registers. -/
def TargetSem : Type := (GPR → V) → (Nat → Nat) → (Nat → V) → RetRegs

/-- Machine state while executing a trampoline.  `stackSlots k` is the
8-byte outgoing-argument slot at `[rsp + 8*k]` after the stack reservation;
`saved` is the push/pop stack; `retMem` is the caller's return buffer;
`argVal i` is the pointee of `args[i].value_ptr` (`none` models a NULL
`value_ptr`). -/
structure MState where
  gpr : GPR → V
  xmm : Nat → Nat
  stackSlots : Nat → V
  saved : List V
  retMem : Mem
  argVal : Nat → Option Nat

/-- The pointee bits a `w`-byte load at displacement `disp` reads from the
value `raw` stored little-endian at an argument pointer. -/
def pointeeBits (raw disp w : Nat) : Nat := raw / 2 ^ (8 * disp) % 2 ^ (8 * w)

/-- Effect of one instruction on the machine state.  The semantics of
`callRax` hands the register files and the outgoing stack slots to the
target and materialises its return registers; the callee-saved registers
(RBP, R12-R15) keep their values across the call, which is the ABI's
callee-saved guarantee. -/
def step (tgt : TargetSem) (s : MState) : X86Instr → MState
  | .endbr64 => s
  | .pushReg r => { s with saved := s.gpr r :: s.saved }
  | .popReg r =>
      { s with gpr := fun g => if g = r then s.saved.headD .undef else s.gpr g,
               saved := s.saved.tail }
  | .movRegReg dst src =>
      { s with gpr := fun g => if g = dst then s.gpr src else s.gpr g }
  | .subRspImm8 _ => s
  | .addRspImm8 _ => s
  | .movAl0 =>
      { s with gpr := fun g => if g = .rax then
          (match s.gpr .rax with
           | .num n => .num (n / 256 * 256)
           | _ => .undef) else s.gpr g }
  | .loadPtr dst base disp =>
      { s with gpr := fun g => if g = dst then
          (match s.gpr base with
           | .argsBase => .argPtr (disp / 8)
           | _ => .undef) else s.gpr g }
  | .loadGprExt e dst base =>
      { s with gpr := fun g => if g = dst then
          (match s.gpr base with
           | .argPtr i =>
             (match s.argVal i with
              | some raw => .num (e.extend raw)
              | none => .undef)
           | _ => .undef) else s.gpr g }
  | .loadGpr64Disp dst base disp =>
      { s with gpr := fun g => if g = dst then
          (match s.gpr base with
           | .argPtr i =>
             (match s.argVal i with
              | some raw => .num (pointeeBits raw disp 8)
              | none => .undef)
           | _ => .undef) else s.gpr g }
  | .loadXmm dbl dst base =>
      { s with xmm := fun j => if j = dst then
          (match s.gpr base with
           | .argPtr i =>
             (match s.argVal i with
              | some raw => raw % 2 ^ (if dbl then 64 else 32)
              | none => 0)
           | _ => 0) else s.xmm j }
  | .storeStackGpr src off =>
      { s with stackSlots := fun k => if k = off / 8 then s.gpr src else s.stackSlots k }
  | .storeStackGprD8 src off =>
      { s with stackSlots := fun k => if k = off / 8 then s.gpr src else s.stackSlots k }
  | .storeStackXmm dbl src off =>
      { s with stackSlots := fun k => if k = off / 8 then
          V.num (s.xmm src % 2 ^ (if dbl then 64 else 32)) else s.stackSlots k }
  | .movRaxImm64 addr =>
      { s with gpr := fun g => if g = .rax then .num (addr % 2 ^ 64) else s.gpr g }
  | .callRax =>
      let r := tgt s.gpr s.xmm s.stackSlots
      { s with
        gpr := fun g =>
          if g = .rax then .num (r.rax % 2 ^ 64)
          else if g = .rdx then .num (r.rdx % 2 ^ 64)
          else s.gpr g,
        xmm := fun j => if j = 0 then r.xmm0 % 2 ^ 64 else s.xmm j }
  | .storeRet w base =>
      match s.gpr base with
      | .retPtr => { s with retMem := writeBytes s.retMem 0 w (vToNat (s.gpr .rax)) }
      | _ => s
  | .storeRetDisp src base disp =>
      match s.gpr base with
      | .retPtr => { s with retMem := writeBytes s.retMem disp 8 (vToNat (s.gpr src)) }
      | _ => s
  | .storeRetXmm dbl base =>
      match s.gpr base with
      | .retPtr =>
        { s with retMem := writeBytes s.retMem 0 (if dbl then 8 else 4) (s.xmm 0) }
      | _ => s
  | .ret => s

/-- Run a whole instruction sequence. -/
def exec (tgt : TargetSem) (code : List X86Instr) (s : MState) : MState :=
  code.foldl (step tgt) s

/-- The machine state at trampoline entry under SysV: the trampoline is
called as `trampoline(args, num_args, return_buffer_ptr)` with RDI = args,
RSI = num_args, RDX = return_buffer_ptr (cross.c lines 697-702). -/
def sysvEntryState (argVal : Nat → Option Nat) (numArgs : Nat) (slot : Mem) : MState where
  gpr := fun g =>
    if g = .rdi then .argsBase
    else if g = .rsi then .num numArgs
    else if g = .rdx then .retPtr
    else .undef
  xmm := fun _ => 0
  stackSlots := fun _ => .undef
  saved := []
  retMem := slot
  argVal := argVal

/-- Running a generated trampoline: the contents of the caller's return
buffer after the generated code has executed. -/
def runTrampoline (tgt : TargetSem) (code : List X86Instr)
    (argVal : Nat → Option Nat) (numArgs : Nat) (slot : Mem) : Mem :=
  (exec tgt code (sysvEntryState argVal numArgs slot)).retMem

/-! ### The dispatcher (`invoke_foreign_function`, cross.c lines 2217-2337) -/

/-- The generic argument slot (`FFI_Argument`, cross.c lines 77-79).
`value_ptr = none` models a NULL pointer; `some raw` models a pointer to
caller storage holding the little-endian bits `raw`. -/
structure FFI_Argument where
  value_ptr : Option Nat
  deriving DecidableEq, Repr

/-- The pointee map the trampoline sees for an argument vector. -/
def argValOf (args : List FFI_Argument) : Nat → Option Nat :=
  fun i => (args.getD i ⟨none⟩).value_ptr

/-- What one call of `invoke_foreign_function` did: the boolean it
returned, whether control was handed to the trampoline, and the final
contents of the caller's return buffer. -/
structure InvokeOutcome where
  ok : Bool
  entered : Bool
  slot : Mem

/-- The dispatcher `invoke_foreign_function` (cross.c lines 2217-2337),
with its checks in source order: the arity check (lines 2224-2228), the
NULL-`value_ptr` check when a return argument was supplied (lines
2231-2237), the missing-trampoline check (lines 2243-2246), the final
NULL-return-buffer check (lines 2324-2327), then the trampoline call
(line 2332) and `return true`. -/
def invoke_foreign_function (tgt : TargetSem) (sig : FFI_FunctionSignature)
    (args : List FFI_Argument) (num_args : Nat)
    (return_value_out : Option FFI_Argument) (slot : Mem) : InvokeOutcome :=
  if num_args ≠ sig.num_params then ⟨false, false, slot⟩
  else
    let actual_return_buffer_ptr : Option Nat :=
      match return_value_out with
      | some rv => rv.value_ptr
      | none => none
    if return_value_out.isSome ∧ actual_return_buffer_ptr = none ∧
        sig.return_type ≠ .VOID then ⟨false, false, slot⟩
    else if sig.trampoline_code = none then ⟨false, false, slot⟩
    else if sig.return_type ≠ .VOID ∧ actual_return_buffer_ptr = none then
      ⟨false, false, slot⟩
    else
      match sig.trampoline_code with
      | some code => ⟨true, true, runTrampoline tgt code (argValOf args) num_args slot⟩
      | none => ⟨false, false, slot⟩

/-! ### Executable memory and the factory (`create_ffi_function`) -/

/-- Outcome of `ffi_create_executable_memory` (cross.c lines 576-618,
FFI_OS_LINUX branch; the Win64 and macOS branches are structurally
identical): either the mapped region, or a process exit.  `osResult`
models the value `mmap` returned (`none` = MAP_FAILED): on failure the
function calls `BAIL_OUT`, and `__double_tap_bail_out_internal` (lines
3726-3735) prints and calls `exit(255)`. -/
inductive AllocOutcome where
  | mem (addr : Nat)
  | exited (code : Nat)
  deriving DecidableEq, Repr

/-- Model of `ffi_create_executable_memory`. -/
def ffi_create_executable_memory (osResult : Option Nat) : AllocOutcome :=
  match osResult with
  | some addr => .mem addr
  | none => .exited 255

/-- What one call of `create_ffi_function` did: the returned signature
object (`none` = NULL), whether the executable region was released again
(`ffi_free_executable_memory`), whether the instruction cache was flushed
(`ffi_flush_instruction_cache`), and whether the process exited instead of
returning. -/
structure CreateResult where
  ret : Option FFI_FunctionSignature
  freed : Bool
  flushed : Bool
  exitedWith : Option Nat
  deriving DecidableEq, Repr

/-- The allocation size used by the factory: `trampoline_size = 512`
(cross.c line 2105). -/
def trampolineRegionSize : Nat := 512

/-- The factory `create_ffi_function` (cross.c lines 2089-2187) on the
SysV host, for the generated-trampoline path (`manual_trampoline_bytes ==
NULL`) and with the `malloc` of the signature struct succeeding: fill the
struct, allocate 512 bytes of executable memory, run the generator, and
either release the region and return NULL when the reported size is zero
or exceeds the region (lines 2130-2137), or flush the instruction cache
and publish (lines 2140-2186). -/
def create_ffi_function (osResult : Option Nat) (return_type : FFI_Type)
    (param_types : List FFI_Type) (func_ptr : Nat) : CreateResult :=
  match ffi_create_executable_memory osResult with
  | .exited c => ⟨none, false, false, some c⟩
  | .mem _ =>
    let sig₀ : FFI_FunctionSignature :=
      { return_type := return_type, param_types := param_types,
        func_ptr := func_ptr, trampoline_code := none }
    let actual_code_size := sysv_generate_size sig₀
    if actual_code_size = 0 ∨ trampolineRegionSize < actual_code_size then
      ⟨none, true, false, none⟩
    else
      ⟨some { sig₀ with trampoline_code := sysv_generate sig₀ }, false, true, none⟩

/-- What one call of `destroy_ffi_function` did. -/
structure DestroyResult where
  freedRegion : Bool
  freedStruct : Bool
  returnedNormally : Bool
  deriving DecidableEq, Repr

/-- The destructor `destroy_ffi_function` (cross.c lines 2194-2204):
`if (ffi_func)` guards everything, so a NULL argument does nothing; a
non-NULL argument releases the executable region when `trampoline_code`
is non-NULL and then frees the struct. -/
def destroy_ffi_function : Option FFI_FunctionSignature → DestroyResult
  | none => ⟨false, false, true⟩
  | some f => ⟨f.trampoline_code.isSome, true, true⟩

/-! ### The Win64 generator: allocation decisions and stack arithmetic
(`generate_x86_64_win64_trampoline`, cross.c lines 1182-1670) -/

/-- Whether the Win64 generator returns the value through a hidden pointer
in RCX (cross.c lines 1234-1243): exactly the 128-bit integer returns. -/
def win64ReturnByPointer (rt : FFI_Type) : Bool :=
  rt = .INT128 ∨ rt = .UINT128

/-- One step of the Win64 register-count pre-pass (cross.c lines
1245-1268): 4 integer registers, 4 XMM registers, 128-bit values take two
integer registers when `num_gp_regs_used <= 2`. -/
def win64PrepassStep (st : Nat × Nat × Nat) (t : FFI_Type) : Nat × Nat × Nat :=
  match st with
  | (gp, xm, stk) =>
    if t = .FLOAT ∨ t = .DOUBLE then
      if xm < 4 then (gp, xm + 1, stk) else (gp, xm, stk + 1)
    else if t = .INT128 ∨ t = .UINT128 then
      if gp ≤ 2 then (gp + 2, xm, stk) else (gp, xm, stk + 2)
    else
      if gp < 4 then (gp + 1, xm, stk) else (gp, xm, stk + 1)

/-- The Win64 pre-pass: `num_gp_regs_used` starts at 1 when the return
value is passed by hidden pointer (cross.c line 1238). -/
def win64Prepass (rt : FFI_Type) (ps : List FFI_Type) : Nat × Nat × Nat :=
  ps.foldl win64PrepassStep ((if win64ReturnByPointer rt then 1 else 0), 0, 0)

/-- The `total_stack_alloc` computation of the Win64 generator (cross.c
lines 1270-1284): 32 bytes of shadow space, 8 bytes per stack argument,
plus 8 alignment bytes when `(8 + total) % 16 != 0`. -/
def win64_total_stack_alloc (rt : FFI_Type) (ps : List FFI_Type) : Nat :=
  let stk := (win64Prepass rt ps).2.2
  let total := 32 + stk * 8
  if (8 + total) % 16 ≠ 0 then total + 8 else total

/-- The load forms supported by the Win64 GPR marshalling switch (cross.c
lines 1380-1435); only the support set matters for the allocation model,
so this is a predicate.  The switch handles every kind except `VOID` and
`UNKNOWN` (`default: return 0`), floats and 128-bit integers being handled
by the other branches. -/
def win64GprSwitchSupported : FFI_Type → Bool
  | .BOOL | .CHAR | .UCHAR | .SCHAR => true
  | .SHORT | .SSHORT | .USHORT => true
  | .INT | .SINT | .WCHAR | .UINT => true
  | .LONG | .ULONG | .SLONG => true
  | .LLONG | .ULLONG | .POINTER | .SIZE_T | .SLLONG => true
  | _ => false

/-- The allocation decisions of the Win64 marshalling loop (cross.c lines
1311-1552).  The state is `(gp_reg_idx, xmm_reg_idx,
stack_arg_current_idx)`.  Note that the 128-bit branch tests the pre-pass
total `num_gp_regs_used`, not the running `gp_reg_idx` (line 1345); the
constant `totalGp` reproduces that. -/
def win64MarshalLocs (totalGp : Nat) :
    List FFI_Type → (Nat × Nat × Nat) → Option (List ArgLoc)
  | [], _ => some []
  | t :: ts, (gp, xm, stk) =>
    if t = .FLOAT ∨ t = .DOUBLE then
      if xm < 4 then
        (win64MarshalLocs totalGp ts (gp, xm + 1, stk)).map (.xmm xm :: ·)
      else
        (win64MarshalLocs totalGp ts (gp, xm, stk + 1)).map (.stack stk :: ·)
    else if t = .INT128 ∨ t = .UINT128 then
      if totalGp ≤ 2 then
        (win64MarshalLocs totalGp ts (gp + 2, xm, stk)).map (.gprPair gp (gp + 1) :: ·)
      else
        (win64MarshalLocs totalGp ts (gp, xm, stk + 2)).map (.stackPair stk (stk + 1) :: ·)
    else if win64GprSwitchSupported t then
      if gp < 4 then
        (win64MarshalLocs totalGp ts (gp + 1, xm, stk)).map (.gpr gp :: ·)
      else
        (win64MarshalLocs totalGp ts (gp, xm, stk + 1)).map (.stack stk :: ·)
    else none

/-- Argument allocation of the whole Win64 generator: `gp_reg_idx` starts
at 1 when the return value takes RCX (cross.c lines 1303-1309), and the
128-bit test compares against the pre-pass total. -/
def win64AllocLocs (rt : FFI_Type) (ps : List FFI_Type) : Option (List ArgLoc) :=
  let start := if win64ReturnByPointer rt then 1 else 0
  win64MarshalLocs (win64Prepass rt ps).1 ps (start, 0, 0)

/-! ### The AArch64 generator: stack arithmetic
(`generate_arm64_aapcs_trampoline`, cross.c lines 1682-2040) -/

/-- One step of the AAPCS64 register-count pre-pass (cross.c lines
1732-1754): 8 integer registers X0-X7, 8 float registers V0-V7, 128-bit
values take two integer registers when `num_gp_regs_used <= 6`. -/
def arm64PrepassStep (st : Nat × Nat × Nat) (t : FFI_Type) : Nat × Nat × Nat :=
  match st with
  | (gp, xm, stk) =>
    if t = .FLOAT ∨ t = .DOUBLE then
      if xm < 8 then (gp, xm + 1, stk) else (gp, xm, stk + 1)
    else if t = .INT128 ∨ t = .UINT128 then
      if gp ≤ 6 then (gp + 2, xm, stk) else (gp, xm, stk + 2)
    else
      if gp < 8 then (gp + 1, xm, stk) else (gp, xm, stk + 1)

/-- The AArch64 pre-pass (128-bit returns use X0/X1, no hidden pointer;
cross.c lines 1722-1730). -/
def arm64Prepass (ps : List FFI_Type) : Nat × Nat × Nat :=
  ps.foldl arm64PrepassStep (0, 0, 0)

/-- The `final_stack_subtraction` computation of the AArch64 generator
(cross.c lines 1756-1765): 8 bytes per stack argument, padded by 8 when
not a multiple of 16. -/
def arm64_final_stack_subtraction (ps : List FFI_Type) : Nat :=
  let sz := (arm64Prepass ps).2.2 * 8
  if sz % 16 ≠ 0 then sz + 8 else sz

/-! ### Stack alignment at the call instruction

On both x86-64 ABIs the caller's `call` into the trampoline pushes an
8-byte return address onto a 16-byte-aligned stack, so at trampoline entry
`RSP ≡ 8 (mod 16)`; on AArch64 `BL` does not touch SP, so `SP ≡ 0
(mod 16)` at entry.  The stack pointer at the trampoline's own call
instruction is the entry value minus the prologue pushes and the stack
reservation, so it is 16-byte aligned exactly when
`entryOffset + pushBytes + reservation ≡ 0 (mod 16)`. -/

/-- Distance of RSP below a 16-byte boundary at the SysV trampoline's
`call rax`: 8 (return address) + 24 (push rbp, push r14, push r12,
cross.c lines 712-735) + the reservation. -/
def sysvRspOffsetAtCall (ps : List FFI_Type) : Nat :=
  (8 + 24 + sysv_final_stack_subtraction ps) % 16

/-- Distance of RSP below a 16-byte boundary at the Win64 trampoline's
`call rax`: 8 (return address) + 24 (push rbp, push r13, push r14,
cross.c lines 1195-1217) + the reservation. -/
def win64RspOffsetAtCall (rt : FFI_Type) (ps : List FFI_Type) : Nat :=
  (8 + 24 + win64_total_stack_alloc rt ps) % 16

/-- Distance of SP below a 16-byte boundary at the AArch64 trampoline's
`BLR X16`: 0 (BL preserves SP) + 32 (two pre-indexed STP pushes, cross.c
lines 1696-1706) + the reservation. -/
def arm64SpOffsetAtCall (ps : List FFI_Type) : Nat :=
  (0 + 32 + arm64_final_stack_subtraction ps) % 16

/-! ### AL at the call instruction

`invoke_foreign_function` calls the trampoline with an arbitrary AL, so the
scan starts from an unknown value (`none`).  Each instruction either leaves
AL alone, sets it to a known value, or makes it unknown (any write to RAX
other than `mov al, 0` and `movabs rax, imm64`). -/

/-- Effect of one emitted instruction on AL (the low byte of RAX).
`none` is an unknown value. -/
def alEffect : X86Instr → Option Nat → Option Nat
  | .movAl0, _ => some 0
  | .movRaxImm64 a, _ => some (a % 256)
  | .popReg r, al => if r = .rax then none else al
  | .movRegReg dst _, al => if dst = .rax then none else al
  | .loadPtr dst _ _, al => if dst = .rax then none else al
  | .loadGprExt _ dst _, al => if dst = .rax then none else al
  | .loadGpr64Disp dst _ _, al => if dst = .rax then none else al
  | .callRax, _ => none
  | _, al => al

/-- The value of AL at the moment the first `call rax` of an instruction
sequence executes (`none` when unknown, or when the sequence contains no
call). -/
def alAtFirstCall : List X86Instr → Option Nat → Option Nat
  | [], _ => none
  | i :: rest, al => if i = .callRax then al else alAtFirstCall rest (alEffect i al)

/-! ### The identity target functions

The test fixtures of cross.c (`int_identity`, `float_identity`, ... at
lines 320-550) are C functions `T identity(T x) { return x; }` compiled
under the host ABI.  Under SysV such a function receives its single scalar
argument in the first register of its class (RDI, XMM0, or the pair
RDI:RSI for 128-bit integers) and returns it in RAX / XMM0 / RAX:RDX. -/

/-- ABI-level semantics of a SysV identity target of kind `t`. -/
def identityTarget (t : FFI_Type) : TargetSem := fun g x _ =>
  if t = .FLOAT ∨ t = .DOUBLE then ⟨0, 0, x 0⟩
  else if t = .INT128 ∨ t = .UINT128 then ⟨vToNat (g .rdi), vToNat (g .rsi), 0⟩
  else ⟨vToNat (g .rdi), 0, 0⟩

/-- The published signature object for an identity target of kind `t` at
address `fp`: return type `t`, one parameter of type `t`, and the
trampoline the SysV generator emits for it. -/
def identitySig (t : FFI_Type) (fp : Nat) : FFI_FunctionSignature :=
  { return_type := t, param_types := [t], func_ptr := fp,
    trampoline_code := sysv_generate
      { return_type := t, param_types := [t], func_ptr := fp,
        trampoline_code := none } }

/-! ### Helper lemmas on byte memory and register extension -/

theorem writeBytes_outside (m : Mem) (off w v a : Nat)
    (h : a < off ∨ off + w ≤ a) : writeBytes m off w v a = m a := by
  induction w generalizing m off v with
  | zero => rfl
  | succ w ih =>
      have ha : a ≠ off := by omega
      rw [writeBytes, ih]
      · simp [ha]
      · omega

theorem readBytes_congr (m₁ m₂ : Mem) (off w : Nat)
    (h : ∀ a, off ≤ a → a < off + w → m₁ a = m₂ a) :
    readBytes m₁ off w = readBytes m₂ off w := by
  induction w generalizing off with
  | zero => rfl
  | succ w ih =>
      rw [readBytes, readBytes, h off (by omega) (by omega), ih]
      intro a h₁ h₂
      exact h a (by omega) (by omega)

theorem readBytes_writeBytes (m : Mem) (off w v : Nat) :
    readBytes (writeBytes m off w v) off w = v % 2 ^ (8 * w) := by
  induction w generalizing m off v with
  | zero => simp [readBytes, Nat.mod_one]
  | succ w ih =>
      rw [writeBytes, readBytes]
      have hcell : writeBytes (fun a => if a = off then v % 256 else m a)
          (off + 1) w (v / 256) off = v % 256 := by
        rw [writeBytes_outside _ _ _ _ _ (by omega)]
        simp
      rw [hcell, ih]
      have h2 : 2 ^ (8 * (w + 1)) = 256 * 2 ^ (8 * w) := by
        rw [show 8 * (w + 1) = 8 + 8 * w by ring, pow_add]
        norm_num
      rw [h2, Nat.mod_mul]
      simp [Nat.mod_mod_of_dvd]

theorem readBytes_split (m : Mem) (off w₁ w₂ : Nat) :
    readBytes m off (w₁ + w₂) =
      readBytes m off w₁ + 2 ^ (8 * w₁) * readBytes m (off + w₁) w₂ := by
  induction w₁ generalizing off with
  | zero => simp [readBytes]
  | succ w ih =>
      rw [show w + 1 + w₂ = (w + w₂) + 1 by ring, readBytes, ih, readBytes,
          show 8 * (w + 1) = 8 + 8 * w by ring, pow_add,
          show off + (w + 1) = off + 1 + w by ring]
      ring

theorem zext_mod (w v : Nat) : zext w v % 2 ^ (8 * w) = v % 2 ^ (8 * w) := by
  simp [zext, Nat.mod_mod_of_dvd]

theorem sext_mod (w v : Nat) (hw : 8 * w ≤ 64) :
    sext w v % 2 ^ (8 * w) = v % 2 ^ (8 * w) := by
  unfold sext
  split
  · simp
  · have hsplit : 2 ^ 64 - 2 ^ (8 * w) = 2 ^ (8 * w) * (2 ^ (64 - 8 * w) - 1) := by
      rw [Nat.mul_sub, mul_one, ← pow_add]
      congr 2
      omega
    rw [hsplit, Nat.add_mul_mod_self_left]
    simp

theorem zext_lt (w v : Nat) (hw : 8 * w ≤ 64) : zext w v < 2 ^ 64 :=
  lt_of_lt_of_le (Nat.mod_lt _ (pow_pos (by norm_num) _))
    (Nat.pow_le_pow_right (by norm_num) hw)

theorem sext_lt (w v : Nat) (hw : 8 * w ≤ 64) : sext w v < 2 ^ 64 := by
  unfold sext
  have hm : v % 2 ^ (8 * w) < 2 ^ (8 * w) := Nat.mod_lt _ (pow_pos (by norm_num) _)
  have hle : 2 ^ (8 * w) ≤ 2 ^ 64 := Nat.pow_le_pow_right (by norm_num) hw
  split
  · omega
  · omega

/-! ### Helper lemmas on the generator and the factory -/

theorem sysvMarshalList_void (ps : List FFI_Type) (i : Nat) (st : Nat × Nat × Nat)
    (h : FFI_Type.VOID ∈ ps) : sysvMarshalList ps i st = none := by
  induction ps generalizing i st with
  | nil => cases h
  | cons t ts ih =>
      obtain ⟨gp, xm, stk⟩ := st
      rcases List.mem_cons.mp h with rfl | hmem
      · simp [sysvMarshalList, sysvMarshalArg, sysvGprLoadExt]
      · simp only [sysvMarshalList]
        cases harg : sysvMarshalArg i t (gp, xm, stk) with
        | none => rfl
        | some x =>
            obtain ⟨ins, loc, st₂⟩ := x
            dsimp only
            rw [ih _ _ hmem]

theorem sysv_generate_none_of_void (sig : FFI_FunctionSignature)
    (h : FFI_Type.VOID ∈ sig.param_types) : sysv_generate sig = none := by
  unfold sysv_generate
  rw [sysvMarshalList_void _ _ _ h]

theorem create_some_eq (a : Nat) (rt : FFI_Type) (ps : List FFI_Type) (fp : Nat) :
    create_ffi_function (some a) rt ps fp =
      if sysv_generate_size ⟨rt, ps, fp, none⟩ = 0 ∨
          trampolineRegionSize < sysv_generate_size ⟨rt, ps, fp, none⟩ then
        ⟨none, true, false, none⟩
      else ⟨some ⟨rt, ps, fp, sysv_generate ⟨rt, ps, fp, none⟩⟩, false, true, none⟩ := rfl

/-! ### The claims -/

/-- C2: for every constructed signature and every argument count
`num_args` different from the signature's parameter count,
`invoke_foreign_function` returns false, the trampoline is not entered,
and the memory the return slot points to is left unchanged. -/
theorem invoke_arity_mismatch (tgt : TargetSem) (sig : FFI_FunctionSignature)
    (args : List FFI_Argument) (num_args : Nat) (out : Option FFI_Argument)
    (slot : Mem) (h : num_args ≠ sig.num_params) :
    invoke_foreign_function tgt sig args num_args out slot = ⟨false, false, slot⟩ := by
  unfold invoke_foreign_function
  rw [if_pos h]

theorem invoke_arity_mismatch_witness :
    ((2 : Nat) ≠ (identitySig .INT 7).num_params) ∧
    invoke_foreign_function (identityTarget .INT) (identitySig .INT 7) [] 2 none
      (fun _ => 0) = ⟨false, false, fun _ => 0⟩ :=
  ⟨by decide, invoke_arity_mismatch _ _ _ _ _ _ (by decide)⟩

/-- C3: for every signature whose return type is not Void,
`invoke_foreign_function` called with a null return slot
(`return_value_out == NULL`, or `return_value_out->value_ptr == NULL`)
returns false and does not invoke the target function (and leaves the
return buffer unchanged). -/
theorem invoke_null_return_slot (tgt : TargetSem) (sig : FFI_FunctionSignature)
    (args : List FFI_Argument) (num_args : Nat) (out : Option FFI_Argument)
    (slot : Mem) (hret : sig.return_type ≠ .VOID)
    (hnull : out = none ∨ out = some ⟨none⟩) :
    invoke_foreign_function tgt sig args num_args out slot = ⟨false, false, slot⟩ := by
  rcases hnull with rfl | rfl
  all_goals
    dsimp only [invoke_foreign_function]
    split_ifs with h1 h2 h3 h4
    · rfl
    · rfl
    · rfl
    · rfl
    · exact absurd ⟨hret, rfl⟩ h4

theorem invoke_null_return_slot_witness :
    ((identitySig .INT 7).return_type ≠ .VOID) ∧
    invoke_foreign_function (identityTarget .INT) (identitySig .INT 7)
      [⟨some 5⟩] 1 none (fun _ => 0) = ⟨false, false, fun _ => 0⟩ :=
  ⟨by decide, invoke_null_return_slot _ _ _ _ _ _ (by decide) (Or.inl rfl)⟩

/-- C4: the claim that the prologue pushes plus the computed stack
reservation leave RSP/SP 16-byte aligned at the call instruction on all
three ABIs holds for SysV and AAPCS64, but fails on Win64: there the
reservation is computed as if the trampoline had been entered with RSP
16-byte aligned, while the ABI-mandated entry state has the pushed return
address, so RSP is 8 bytes off a 16-byte boundary at every `call rax` the
Win64 generator emits.  The Win64 reservation does always contain the
32-byte shadow space. -/
theorem call_site_stack_alignment :
    (∀ ps : List FFI_Type, sysvRspOffsetAtCall ps = 0) ∧
    (∀ ps : List FFI_Type, arm64SpOffsetAtCall ps = 0) ∧
    (∀ (rt : FFI_Type) (ps : List FFI_Type), 32 ≤ win64_total_stack_alloc rt ps) ∧
    (∀ (rt : FFI_Type) (ps : List FFI_Type), win64RspOffsetAtCall rt ps = 8) := by
  refine ⟨?_, ?_, ?_, ?_⟩
  · intro ps
    simp only [sysvRspOffsetAtCall, sysv_final_stack_subtraction, roundUpTo16]
    split_ifs <;> omega
  · intro ps
    simp only [arm64SpOffsetAtCall, arm64_final_stack_subtraction]
    split_ifs <;> omega
  · intro rt ps
    simp only [win64_total_stack_alloc]
    split_ifs <;> omega
  · intro rt ps
    simp only [win64RspOffsetAtCall, win64_total_stack_alloc]
    split_ifs <;> omega

/-- C5: the SysV generator emits `mov al, 0` before the marshalling, but
then loads the 64-bit target address into RAX (`movabs rax, imm64`)
immediately before `call rax`, which overwrites AL.  At the moment the
indirect call executes, AL holds the low byte of the target function's
address, not 0 (here for the one-int-parameter signature the generator
accepts). -/
theorem sysv_al_at_call_is_target_low_byte (fp : Nat) :
    (sysv_generate ⟨.INT, [.INT], fp, none⟩).map (fun c => alAtFirstCall c none)
      = some (some (fp % 256)) := rfl

/-- C6: the Win64 marshalling loop decides whether a 128-bit integer gets
a register pair by testing the pre-pass total `num_gp_regs_used` instead
of the running `gp_reg_idx` (cross.c line 1345).  For the parameter list
`(INT128, INT)` the total is 3, so the 128-bit argument is sent to two
stack slots even though RCX:RDX are still free, and the following INT then
takes the first register - contradicting left-to-right allocation of two
adjacent free registers to the 128-bit value. -/
theorem win64_int128_spilled_with_free_regs :
    win64AllocLocs .INT [.INT128, .INT] =
      some [.stackPair 0 1, .gpr 0] := by decide

/-- C7 counterexample: when the OS refuses the executable-memory
allocation (`mmap` returns MAP_FAILED, modelled by `none`),
`ffi_create_executable_memory` calls `BAIL_OUT`, which exits the process
with status 255 - so it is not true that the enclosing process is not
terminated. -/
theorem alloc_refusal_counterexample :
    ¬ (create_ffi_function none .INT [.INT] 4096).exitedWith = none := by decide

/-- C7 (amended): when the OS refuses the executable-memory allocation,
no trampoline is returned to the caller, no region is released and no
cache flush happens, because `ffi_create_executable_memory` terminates
the process via `BAIL_OUT` with exit status 255 before
`create_ffi_function` can propagate the failure. -/
theorem alloc_refusal_exits (rt : FFI_Type) (ps : List FFI_Type) (fp : Nat) :
    create_ffi_function none rt ps fp = ⟨none, false, false, some 255⟩ := rfl

/-- C8: for every signature, if trampoline generation reports zero bytes
or more bytes than the 512-byte executable region, `create_ffi_function`
releases the region, returns NULL, and neither flushes the instruction
cache nor publishes a trampoline. -/
theorem create_rejects_bad_size (a : Nat) (rt : FFI_Type) (ps : List FFI_Type)
    (fp : Nat)
    (h : sysv_generate_size ⟨rt, ps, fp, none⟩ = 0 ∨
         trampolineRegionSize < sysv_generate_size ⟨rt, ps, fp, none⟩) :
    create_ffi_function (some a) rt ps fp = ⟨none, true, false, none⟩ := by
  rw [create_some_eq, if_pos h]

theorem create_rejects_bad_size_witness :
    (sysv_generate_size ⟨.INT, [.VOID], 0, none⟩ = 0 ∨
     trampolineRegionSize < sysv_generate_size ⟨.INT, [.VOID], 0, none⟩) ∧
    create_ffi_function (some 0) .INT [.VOID] 0 = ⟨none, true, false, none⟩ :=
  ⟨Or.inl (by decide), create_rejects_bad_size 0 .INT [.VOID] 0 (Or.inl (by decide))⟩

/-- C9: constructing an FFI function whose parameter list contains Void
fails: for a Void parameter the SysV generator hits its
`default: return 0` branch, so it reports zero bytes, and
`create_ffi_function` therefore returns NULL instead of a trampoline. -/
theorem create_void_param_fails (a fp : Nat) (rt : FFI_Type) (ps : List FFI_Type)
    (h : FFI_Type.VOID ∈ ps) :
    sysv_generate_size ⟨rt, ps, fp, none⟩ = 0 ∧
    (create_ffi_function (some a) rt ps fp).ret = none := by
  have hg : sysv_generate ⟨rt, ps, fp, none⟩ = none :=
    sysv_generate_none_of_void _ h
  have hs : sysv_generate_size ⟨rt, ps, fp, none⟩ = 0 := by
    unfold sysv_generate_size
    rw [hg]
  refine ⟨hs, ?_⟩
  rw [create_some_eq, if_pos (Or.inl hs)]

theorem create_void_param_fails_witness :
    (FFI_Type.VOID ∈ [FFI_Type.VOID]) ∧
    (sysv_generate_size ⟨.INT, [.VOID], 3, none⟩ = 0 ∧
     (create_ffi_function (some 1) .INT [.VOID] 3).ret = none) :=
  ⟨by decide, create_void_param_fails 1 3 .INT [.VOID] (by decide)⟩

/-- C10: `destroy_ffi_function` called with a NULL pointer is a no-op: it
frees neither the executable region nor the struct, does not dereference
the pointer, and returns normally. -/
theorem destroy_null_is_noop :
    destroy_ffi_function none = ⟨false, false, true⟩ := rfl

/-! ### Helper lemmas: round-trip of a load extension followed by the
type-correct return store -/

theorem zext_store_roundtrip (w v : Nat) (hw : 8 * w ≤ 64) (hv : v < 2 ^ (8 * w)) :
    zext w v % 2 ^ 64 % 2 ^ (8 * w) = v := by
  rw [Nat.mod_eq_of_lt (zext_lt w v hw), zext_mod, Nat.mod_eq_of_lt hv]

theorem sext_store_roundtrip (w v : Nat) (hw : 8 * w ≤ 64) (hv : v < 2 ^ (8 * w)) :
    sext w v % 2 ^ 64 % 2 ^ (8 * w) = v := by
  rw [Nat.mod_eq_of_lt (sext_lt w v hw), sext_mod w v hw, Nat.mod_eq_of_lt hv]

theorem u64_store_roundtrip (v : Nat) (hv : v < 2 ^ (8 * 8)) :
    v % 2 ^ 64 % 2 ^ 64 % 2 ^ (8 * 8) = v := by
  have h : (8 : Nat) * 8 = 64 := rfl
  rw [h] at hv ⊢
  omega

theorem f32_store_roundtrip (v : Nat) (hv : v < 2 ^ (8 * 4)) :
    v % 2 ^ 32 % 2 ^ 64 % 2 ^ (8 * 4) = v := by
  have h : (8 : Nat) * 4 = 32 := rfl
  rw [h] at hv ⊢
  omega

theorem i128_store_roundtrip (slot : Mem) (v : Nat) (hv : v < 2 ^ (8 * 16)) :
    readBytes (writeBytes (writeBytes slot 0 8 (v % 2 ^ 64 % 2 ^ 64)) 8 8
      (v / 2 ^ (8 * 8) % 2 ^ (8 * 8) % 2 ^ 64)) 0 16 = v := by
  have hlo : readBytes (writeBytes (writeBytes slot 0 8 (v % 2 ^ 64 % 2 ^ 64)) 8 8
      (v / 2 ^ (8 * 8) % 2 ^ (8 * 8) % 2 ^ 64)) 0 8
      = readBytes (writeBytes slot 0 8 (v % 2 ^ 64 % 2 ^ 64)) 0 8 := by
    apply readBytes_congr
    intro a h1 h2
    exact writeBytes_outside _ _ _ _ _ (by omega)
  rw [show (16 : Nat) = 8 + 8 from rfl, readBytes_split, hlo,
      readBytes_writeBytes, readBytes_writeBytes]
  have h8 : (8 : Nat) * 8 = 64 := rfl
  have h16 : (8 : Nat) * 16 = 128 := rfl
  rw [h16] at hv
  rw [h8]
  omega

/-- C1: for every supported scalar TypeKind `t` and every representable
value `v` of `t` (its little-endian bit pattern of `scalarWidth t` bytes),
invoking the SysV trampoline built for an identity target
`fn(x: t) -> t { return x; }` with the single argument `v` returns true
and writes exactly `v` into the caller-supplied return slot. -/
theorem sysv_identity_law (t : FFI_Type) (v fp : Nat) (slot : Mem)
    (ht : t ∈ supportedScalars) (hv : v < 2 ^ (8 * scalarWidth t)) :
    (invoke_foreign_function (identityTarget t) (identitySig t fp) [⟨some v⟩] 1
      (some ⟨some 0⟩) slot).ok = true ∧
    readBytes (invoke_foreign_function (identityTarget t) (identitySig t fp)
      [⟨some v⟩] 1 (some ⟨some 0⟩) slot).slot 0 (scalarWidth t) = v := by
  fin_cases ht
  -- BOOL
  · exact ⟨rfl, by
      show readBytes (writeBytes slot 0 1 (zext 1 v % 2 ^ 64)) 0 1 = v
      rw [readBytes_writeBytes]
      exact zext_store_roundtrip 1 v (by norm_num) hv⟩
  -- CHAR
  · exact ⟨rfl, by
      show readBytes (writeBytes slot 0 1 (zext 1 v % 2 ^ 64)) 0 1 = v
      rw [readBytes_writeBytes]
      exact zext_store_roundtrip 1 v (by norm_num) hv⟩
  -- UCHAR
  · exact ⟨rfl, by
      show readBytes (writeBytes slot 0 1 (zext 1 v % 2 ^ 64)) 0 1 = v
      rw [readBytes_writeBytes]
      exact zext_store_roundtrip 1 v (by norm_num) hv⟩
  -- SHORT
  · exact ⟨rfl, by
      show readBytes (writeBytes slot 0 2 (sext 2 v % 2 ^ 64)) 0 2 = v
      rw [readBytes_writeBytes]
      exact sext_store_roundtrip 2 v (by norm_num) hv⟩
  -- USHORT
  · exact ⟨rfl, by
      show readBytes (writeBytes slot 0 2 (zext 2 v % 2 ^ 64)) 0 2 = v
      rw [readBytes_writeBytes]
      exact zext_store_roundtrip 2 v (by norm_num) hv⟩
  -- INT
  · exact ⟨rfl, by
      show readBytes (writeBytes slot 0 4 (sext 4 v % 2 ^ 64)) 0 4 = v
      rw [readBytes_writeBytes]
      exact sext_store_roundtrip 4 v (by norm_num) hv⟩
  -- UINT
  · exact ⟨rfl, by
      show readBytes (writeBytes slot 0 4 (zext 4 v % 2 ^ 64)) 0 4 = v
      rw [readBytes_writeBytes]
      exact zext_store_roundtrip 4 v (by norm_num) hv⟩
  -- LONG
  · exact ⟨rfl, by
      show readBytes (writeBytes slot 0 8 (v % 2 ^ 64 % 2 ^ 64)) 0 8 = v
      rw [readBytes_writeBytes]
      exact u64_store_roundtrip v hv⟩
  -- ULONG
  · exact ⟨rfl, by
      show readBytes (writeBytes slot 0 8 (v % 2 ^ 64 % 2 ^ 64)) 0 8 = v
      rw [readBytes_writeBytes]
      exact u64_store_roundtrip v hv⟩
  -- LLONG
  · exact ⟨rfl, by
      show readBytes (writeBytes slot 0 8 (v % 2 ^ 64 % 2 ^ 64)) 0 8 = v
      rw [readBytes_writeBytes]
      exact u64_store_roundtrip v hv⟩
  -- ULLONG
  · exact ⟨rfl, by
      show readBytes (writeBytes slot 0 8 (v % 2 ^ 64 % 2 ^ 64)) 0 8 = v
      rw [readBytes_writeBytes]
      exact u64_store_roundtrip v hv⟩
  -- FLOAT
  · exact ⟨rfl, by
      show readBytes (writeBytes slot 0 4 (v % 2 ^ 32 % 2 ^ 64)) 0 4 = v
      rw [readBytes_writeBytes]
      exact f32_store_roundtrip v hv⟩
  -- DOUBLE
  · exact ⟨rfl, by
      show readBytes (writeBytes slot 0 8 (v % 2 ^ 64 % 2 ^ 64)) 0 8 = v
      rw [readBytes_writeBytes]
      exact u64_store_roundtrip v hv⟩
  -- POINTER
  · exact ⟨rfl, by
      show readBytes (writeBytes slot 0 8 (v % 2 ^ 64 % 2 ^ 64)) 0 8 = v
      rw [readBytes_writeBytes]
      exact u64_store_roundtrip v hv⟩
  -- WCHAR
  · exact ⟨rfl, by
      show readBytes (writeBytes slot 0 4 (sext 4 v % 2 ^ 64)) 0 4 = v
      rw [readBytes_writeBytes]
      exact sext_store_roundtrip 4 v (by norm_num) hv⟩
  -- SIZE_T
  · exact ⟨rfl, by
      show readBytes (writeBytes slot 0 8 (v % 2 ^ 64 % 2 ^ 64)) 0 8 = v
      rw [readBytes_writeBytes]
      exact u64_store_roundtrip v hv⟩
  -- SCHAR
  · exact ⟨rfl, by
      show readBytes (writeBytes slot 0 1 (sext 1 v % 2 ^ 64)) 0 1 = v
      rw [readBytes_writeBytes]
      exact sext_store_roundtrip 1 v (by norm_num) hv⟩
  -- SSHORT
  · exact ⟨rfl, by
      show readBytes (writeBytes slot 0 2 (sext 2 v % 2 ^ 64)) 0 2 = v
      rw [readBytes_writeBytes]
      exact sext_store_roundtrip 2 v (by norm_num) hv⟩
  -- SINT
  · exact ⟨rfl, by
      show readBytes (writeBytes slot 0 4 (sext 4 v % 2 ^ 64)) 0 4 = v
      rw [readBytes_writeBytes]
      exact sext_store_roundtrip 4 v (by norm_num) hv⟩
  -- SLONG
  · exact ⟨rfl, by
      show readBytes (writeBytes slot 0 8 (v % 2 ^ 64 % 2 ^ 64)) 0 8 = v
      rw [readBytes_writeBytes]
      exact u64_store_roundtrip v hv⟩
  -- SLLONG
  · exact ⟨rfl, by
      show readBytes (writeBytes slot 0 8 (v % 2 ^ 64 % 2 ^ 64)) 0 8 = v
      rw [readBytes_writeBytes]
      exact u64_store_roundtrip v hv⟩
  -- INT128
  · exact ⟨rfl, by
      show readBytes (writeBytes (writeBytes slot 0 8 (v % 2 ^ 64 % 2 ^ 64)) 8 8
        (v / 2 ^ (8 * 8) % 2 ^ (8 * 8) % 2 ^ 64)) 0 16 = v
      exact i128_store_roundtrip slot v hv⟩
  -- UINT128
  · exact ⟨rfl, by
      show readBytes (writeBytes (writeBytes slot 0 8 (v % 2 ^ 64 % 2 ^ 64)) 8 8
        (v / 2 ^ (8 * 8) % 2 ^ (8 * 8) % 2 ^ 64)) 0 16 = v
      exact i128_store_roundtrip slot v hv⟩

theorem sysv_identity_law_witness :
    (FFI_Type.INT ∈ supportedScalars ∧ (7 : Nat) < 2 ^ (8 * scalarWidth .INT)) ∧
    ((invoke_foreign_function (identityTarget .INT) (identitySig .INT 5) [⟨some 7⟩] 1
        (some ⟨some 0⟩) (fun _ => 0)).ok = true ∧
     readBytes (invoke_foreign_function (identityTarget .INT) (identitySig .INT 5)
        [⟨some 7⟩] 1 (some ⟨some 0⟩) (fun _ => 0)).slot 0 (scalarWidth .INT) = 7) :=
  ⟨⟨by decide, by decide⟩,
   sysv_identity_law .INT 7 5 (fun _ => 0) (by decide) (by decide)⟩
